import Mathlib

/-!
Shallow embedding of the cw-wjuno wrapper contract (src/contract.rs).

The contract wraps a native coin: `try_deposit` mints cw20 tokens for
attached native funds, `try_withdraw` pulls tokens via allowance, burns
them and releases native coin, `try_receive` burns tokens sent through the
cw20 Receive hook and releases native coin, and `try_update_contract`
binds the cw20 ledger address once.

Modelling conventions:
- `Uint128` amounts are `Nat` with explicit bounds against `2 ^ 128`
  where overflow matters.
- Storage is `Option State`; `STATE.load` fails on `none` like `Item::load`
  on an empty store.
- The external collaborators are explicit parameters: the address
  validator `deps.api.addr_validate` becomes `api_valid : String → Bool`,
  and the smart querier for the cw20 Allowance query becomes
  `querier : String → String → String → Except String AllowanceResponse`
  (ledger address, owner, spender).
- `Response` in the source always carries `submessages: vec![]` and
  `data: None`; those two constant fields are omitted, keeping `messages`
  and `attributes`.
- The serialized cw20 message (`to_binary(&msg)`) is kept structured as a
  `Cw20ExecuteMsg` value; binary encoding is out of scope.
-/

namespace WJuno

/-- A native coin attached to a message: `cosmwasm_std::Coin`. -/
structure Coin where
  denom : String
  amount : Nat
  deriving DecidableEq, Repr

/-- The persisted configuration record (`src/state.rs`, `State`):
`owner` set at instantiation, `contract` the cw20 ledger address
(empty string until bound), `native_coin` the accepted denom. -/
structure State where
  owner : String
  contract : String
  native_coin : String
  deriving DecidableEq, Repr

/-- `cosmwasm_std::MessageInfo`: caller identity and attached funds. -/
structure MessageInfo where
  sender : String
  funds : List Coin
  deriving DecidableEq, Repr

/-- The contract part of `cosmwasm_std::Env`. -/
structure ContractInfo where
  address : String
  deriving DecidableEq, Repr

/-- `cosmwasm_std::Env`, reduced to the field the contract reads. -/
structure Env where
  contract : ContractInfo
  deriving DecidableEq, Repr

/-- The cw20 execute messages the contract emits. -/
inductive Cw20ExecuteMsg where
  | Mint (recipient : String) (amount : Nat)
  | Burn (amount : Nat)
  | TransferFrom (owner : String) (recipient : String) (amount : Nat)
  deriving DecidableEq, Repr

/-- Outgoing action: a Wasm execute call on a cw20 ledger, or a bank send.
`Wasm` keeps the cw20 payload structured instead of serialized. -/
inductive CosmosMsg where
  | Wasm (contract_addr : String) (msg : Cw20ExecuteMsg) (send : List Coin)
  | Bank (to_address : String) (amount : List Coin)
  deriving DecidableEq, Repr

/-- An observability attribute, `cosmwasm_std::attr(key, value)`. -/
structure Attribute where
  key : String
  value : String
  deriving DecidableEq, Repr

/-- `cosmwasm_std::attr`. -/
def attr (key value : String) : Attribute := ⟨key, value⟩

/-- `cosmwasm_std::Response`, keeping the two fields the contract ever
sets to something non-trivial (`submessages` is always `vec![]` and
`data` always `None` in this contract). -/
structure Response where
  messages : List CosmosMsg
  attributes : List Attribute
  deriving DecidableEq, Repr

/-- `Response::default()`. -/
def Response.default : Response := ⟨[], []⟩

/-- `cw20::AllowanceResponse`, reduced to the `allowance` field the
contract reads (`expires` is ignored by the source). -/
structure AllowanceResponse where
  allowance : Nat
  deriving DecidableEq, Repr

/-- `InfoResponse` of `src/msg.rs`, as rebuilt by `query_ctr_info`. -/
structure InfoResponse where
  cw20_contract : String
  native_coin : String
  deriving DecidableEq, Repr

/-- Modelled from the spec: the error kinds of `src/error.rs`, which is
not included under src/. `Unauthorized` is the policy-failure kind used
throughout `contract.rs`; `Std` wraps collaborator errors propagated via
`?` (storage, address validation, queries); `ArithmeticOverflow` is the
spec's error condition for overflow of the overflow-checked fund-sum
addition. -/
inductive ContractError where
  | Unauthorized
  | ArithmeticOverflow
  | Std (msg : String)
  deriving DecidableEq, Repr

/-- The `Uint128` modulus: amounts are unsigned 128-bit integers. -/
def UINT128_MOD : Nat := 2 ^ 128

/-- Modelled from the spec: one overflow-checked `Uint128` addition.
The source computes `acc + amount` on `Uint128`; the crate manifest that
fixes the release-profile overflow behavior is not under src/, and the
spec states the fold uses overflow-checked addition with overflow an
error condition, not a silent wrap. -/
def addU128 (a b : Nat) : Except ContractError Nat :=
  if a + b < UINT128_MOD then .ok (a + b) else .error .ArithmeticOverflow

/-- The deposit fold: `funds.iter().map(|x| x.amount).fold(0, |acc, a| acc + a)`
with overflow-checked addition (see `addU128`). -/
def foldSum : Nat → List Nat → Except ContractError Nat
  | acc, [] => .ok acc
  | acc, a :: rest =>
    match addU128 acc a with
    | .error e => .error e
    | .ok acc₁ => foldSum acc₁ rest

/-- `STATE.load(deps.storage)`: fails with a storage error when the
singleton was never saved. -/
def STATE.load : Option State → Except String State
  | some s => .ok s
  | none => .error "wjuno not found"

/-- `instantiate`: saves `State { owner: info.sender, contract: "",
native_coin: msg.native_coin }` and returns `Response::default()`.
The previous storage content is overwritten. -/
def instantiate («_store» : Option State) (info : MessageInfo)
    (native_coin : String) : Option State × Except ContractError Response :=
  (some { owner := info.sender, contract := "", native_coin := native_coin },
   .ok Response.default)

/-- `try_update_contract`: owner-only, once-only binding of the cw20
ledger address, after collaborator address validation. -/
def try_update_contract (api_valid : String → Bool) (store : Option State)
    (info : MessageInfo) (contract : String) :
    Option State × Except ContractError Response :=
  match STATE.load store with
  | .error e => (store, .error (.Std e))
  | .ok state =>
    if info.sender ≠ state.owner then
      (store, .error .Unauthorized)
    else if ¬ state.contract.isEmpty then
      (store, .error .Unauthorized)
    else if ¬ api_valid contract then
      (store, .error (.Std "invalid address"))
    else
      (some { state with contract := contract }, .ok Response.default)

/-- `try_deposit`: rejects any fund whose denom differs from
`state.native_coin`, sums the attached amounts, and emits one cw20 Mint
to the sender on the bound ledger address. -/
def try_deposit (store : Option State) (info : MessageInfo) :
    Option State × Except ContractError Response :=
  match STATE.load store with
  | .error e => (store, .error (.Std e))
  | .ok state =>
    if info.funds.any (fun x => x.denom != state.native_coin) then
      (store, .error .Unauthorized)
    else
      match foldSum 0 (info.funds.map (fun x => x.amount)) with
      | .error e => (store, .error e)
      | .ok amount_to =>
        (store, .ok
          { messages := [CosmosMsg.Wasm state.contract
              (Cw20ExecuteMsg.Mint info.sender amount_to) []],
            attributes := [attr "action" "deposit",
              attr "amount" (toString amount_to),
              attr "sender" info.sender] })

/-- `try_withdraw`: queries the cw20 Allowance of
`(info.sender, env.contract.address)` on the bound ledger, gates on
`amount > allowance`, then emits TransferFrom, Burn and a bank send. -/
def try_withdraw (querier : String → String → String → Except String AllowanceResponse)
    (store : Option State) (env : Env) (info : MessageInfo) (amount : Nat) :
    Option State × Except ContractError Response :=
  match STATE.load store with
  | .error e => (store, .error (.Std e))
  | .ok state =>
    match querier state.contract info.sender env.contract.address with
    | .error e => (store, .error (.Std e))
    | .ok res =>
      if amount > res.allowance then
        (store, .error .Unauthorized)
      else
        (store, .ok
          { messages := [
              CosmosMsg.Wasm state.contract
                (Cw20ExecuteMsg.TransferFrom info.sender env.contract.address amount) [],
              CosmosMsg.Wasm state.contract (Cw20ExecuteMsg.Burn amount) [],
              CosmosMsg.Bank info.sender [⟨state.native_coin, amount⟩]],
            attributes := [attr "action" "withdraw",
              attr "amount" (toString amount),
              attr "sender" info.sender] })

/-- `try_receive`: only the bound cw20 ledger itself may notify; emits a
Burn on the ledger and a bank send to the original sender embedded in the
notification. -/
def try_receive (store : Option State) (info : MessageInfo)
    (sender : String) (amount : Nat) :
    Option State × Except ContractError Response :=
  match STATE.load store with
  | .error e => (store, .error (.Std e))
  | .ok state =>
    if info.sender ≠ state.contract then
      (store, .error .Unauthorized)
    else
      (store, .ok
        { messages := [
            CosmosMsg.Wasm state.contract (Cw20ExecuteMsg.Burn amount) [],
            CosmosMsg.Bank sender [⟨state.native_coin, amount⟩]],
          attributes := [attr "action" "receive_to_withdraw",
            attr "amount" (toString amount),
            attr "sender" sender] })

/-- `ExecuteMsg` of `src/msg.rs` as dispatched by `execute`; `Receive`
carries the `Cw20ReceiveMsg` fields the source destructures (its binary
`msg` payload is ignored by the source and omitted here). -/
inductive ExecuteMsg where
  | Deposit
  | Withdraw (amount : Nat)
  | SetContract (contract : String)
  | Receive (sender : String) (amount : Nat)
  deriving DecidableEq, Repr

/-- The `execute` entry point dispatch. -/
def execute (api_valid : String → Bool)
    (querier : String → String → String → Except String AllowanceResponse)
    (store : Option State) (env : Env) (info : MessageInfo) (msg : ExecuteMsg) :
    Option State × Except ContractError Response :=
  match msg with
  | .Deposit => try_deposit store info
  | .Withdraw amount => try_withdraw querier store env info amount
  | .SetContract contract => try_update_contract api_valid store info contract
  | .Receive sender amount => try_receive store info sender amount

/-- `query_ctr_info`: read-only projection of the configuration. -/
def query_ctr_info (store : Option State) : Except String InfoResponse :=
  match STATE.load store with
  | .error e => .error e
  | .ok info => .ok { cw20_contract := info.contract, native_coin := info.native_coin }

/-- One operation of the external interface, for sequencing claims:
either an `execute` call or the read-only info query. -/
inductive Op where
  | exec (env : Env) (info : MessageInfo) (msg : ExecuteMsg)
  | getInfo
  deriving Repr

/-- The storage after one operation (`getInfo` is read-only). -/
def step (api_valid : String → Bool)
    (querier : String → String → String → Except String AllowanceResponse)
    (store : Option State) : Op → Option State
  | .exec env info msg => (execute api_valid querier store env info msg).1
  | .getInfo => store

/-- The storage after a sequence of operations. -/
def runOps (api_valid : String → Bool)
    (querier : String → String → String → Except String AllowanceResponse)
    (store : Option State) (ops : List Op) : Option State :=
  ops.foldl (step api_valid querier) store

/-- A validator accepting every address, for concrete witnesses. -/
def apiAll : String → Bool := fun _ => true

/-- A validator rejecting exactly the empty address, for concrete
witnesses. -/
def apiNonEmpty : String → Bool := fun a => !a.isEmpty

/-- A querier reporting a constant allowance, for concrete witnesses. -/
def qConst (n : Nat) : String → String → String → Except String AllowanceResponse :=
  fun _ _ _ => .ok ⟨n⟩

/-! ## Helper lemmas -/

/-- The overflow-checked left fold equals the plain sum exactly when the
total (plus the accumulator) stays below the `Uint128` modulus, and fails
with `ArithmeticOverflow` otherwise. -/
theorem foldSum_eq (l : List Nat) : ∀ acc : Nat, acc < UINT128_MOD →
    foldSum acc l =
      if acc + l.sum < UINT128_MOD then .ok (acc + l.sum)
      else .error .ArithmeticOverflow := by
  induction l with
  | nil => intro acc hacc; simp [foldSum, hacc]
  | cons a rest ih =>
    intro acc hacc
    by_cases h : acc + a < UINT128_MOD
    · have h1 : foldSum acc (a :: rest) = foldSum (acc + a) rest := by
        simp [foldSum, addU128, h]
      rw [h1, ih (acc + a) h, List.sum_cons, ← Nat.add_assoc]
    · have h1 : foldSum acc (a :: rest) = .error .ArithmeticOverflow := by
        simp [foldSum, addU128, h]
      rw [h1, List.sum_cons, if_neg (by omega)]

/-- `try_deposit` never writes to storage. -/
theorem try_deposit_fst (store : Option State) (info : MessageInfo) :
    (try_deposit store info).1 = store := by
  unfold try_deposit
  split
  · rfl
  · split
    · rfl
    · split <;> rfl

/-- `try_withdraw` never writes to storage. -/
theorem try_withdraw_fst
    (querier : String → String → String → Except String AllowanceResponse)
    (store : Option State) (env : Env) (info : MessageInfo) (amount : Nat) :
    (try_withdraw querier store env info amount).1 = store := by
  unfold try_withdraw
  split
  · rfl
  · split
    · rfl
    · split <;> rfl

/-- `try_receive` never writes to storage. -/
theorem try_receive_fst (store : Option State) (info : MessageInfo)
    (sender : String) (amount : Nat) :
    (try_receive store info sender amount).1 = store := by
  unfold try_receive
  split
  · rfl
  · split <;> rfl

/-- `try_update_contract` either fails leaving storage untouched, or all
its policy checks passed and it writes exactly the supplied ledger
address into the configuration. -/
theorem try_update_contract_cases (api_valid : String → Bool)
    (store : Option State) (info : MessageInfo) (c : String) :
    (∃ e, try_update_contract api_valid store info c = (store, .error e)) ∨
    (∃ state, STATE.load store = .ok state ∧ info.sender = state.owner ∧
      state.contract = "" ∧ api_valid c = true ∧
      try_update_contract api_valid store info c =
        (some { state with contract := c }, .ok Response.default)) := by
  unfold try_update_contract
  split
  · next e _ => exact .inl ⟨.Std e, rfl⟩
  · next state hload =>
    split
    · exact .inl ⟨.Unauthorized, rfl⟩
    · next h1 =>
      split
      · exact .inl ⟨.Unauthorized, rfl⟩
      · next h2 =>
        split
        · next h3 => exact .inl ⟨.Std "invalid address", rfl⟩
        · next h3 =>
          exact .inr ⟨state, hload, not_not.mp h1,
            (String.isEmpty_iff _).mp (not_not.mp h2), not_not.mp h3, rfl⟩

/-- Once the ledger address is non-empty, any bind attempt fails with
`Unauthorized` and leaves storage untouched, regardless of caller. -/
theorem try_update_contract_bound_fails (api_valid : String → Bool)
    (s : State) (info : MessageInfo) (c : String) (hne : s.contract ≠ "") :
    try_update_contract api_valid (some s) info c =
      (some s, .error .Unauthorized) := by
  unfold try_update_contract
  simp only [STATE.load]
  by_cases h1 : info.sender ≠ s.owner
  · rw [if_pos h1]
  · rw [if_neg h1,
      if_pos (fun him => hne ((String.isEmpty_iff _).mp him))]

/-- The successful deposit shape: all denominations match and the fund
sum stays in `Uint128` range. -/
theorem try_deposit_ok_of (store : Option State) (info : MessageInfo)
    (state : State) (hload : store = some state)
    (hdenom : ∀ c ∈ info.funds, c.denom = state.native_coin)
    (hsum : (info.funds.map (fun c => c.amount)).sum < UINT128_MOD) :
    try_deposit store info =
      (store, .ok
        { messages := [CosmosMsg.Wasm state.contract
            (Cw20ExecuteMsg.Mint info.sender
              ((info.funds.map (fun c => c.amount)).sum)) []],
          attributes := [attr "action" "deposit",
            attr "amount" (toString ((info.funds.map (fun c => c.amount)).sum)),
            attr "sender" info.sender] }) := by
  subst hload
  unfold try_deposit
  simp only [STATE.load]
  rw [if_neg (by
    simp only [List.any_eq_true, bne_iff_ne, ne_eq, not_exists, not_and, not_not]
    exact hdenom)]
  rw [foldSum_eq _ 0 (by simp [UINT128_MOD]), if_pos (by omega), Nat.zero_add]

/-! ## Claims -/

/-- C1: for every withdraw of amount A where the ledger-reported
allowance of (caller, this contract) is at least A, `try_withdraw`
succeeds and returns exactly three actions in order: a TransferFrom of A
from the caller to the contract, a Burn of A, and a native bank send of
(native_denom, A) to the caller, the two cw20 calls targeted at the
bound ledger address. -/
theorem withdraw_sufficient_allowance_batch
    (querier : String → String → String → Except String AllowanceResponse)
    (store : Option State) (env : Env) (info : MessageInfo)
    (amount r : Nat) (state : State)
    (hload : store = some state)
    (hq : querier state.contract info.sender env.contract.address = .ok ⟨r⟩)
    (hr : amount ≤ r) :
    try_withdraw querier store env info amount =
      (store, .ok
        { messages := [
            CosmosMsg.Wasm state.contract
              (Cw20ExecuteMsg.TransferFrom info.sender env.contract.address amount) [],
            CosmosMsg.Wasm state.contract (Cw20ExecuteMsg.Burn amount) [],
            CosmosMsg.Bank info.sender [⟨state.native_coin, amount⟩]],
          attributes := [attr "action" "withdraw",
            attr "amount" (toString amount),
            attr "sender" info.sender] }) := by
  subst hload
  unfold try_withdraw
  simp only [STATE.load, hq]
  rw [if_neg (by simp only [gt_iff_lt, not_lt]; exact hr)]

/-- C1 witness: a concrete withdraw of 4 against a reported allowance of
10 produces the three-action batch. -/
theorem withdraw_sufficient_allowance_batch_witness :
    try_withdraw (qConst 10) (some ⟨"creator", "juno145tr", "juno"⟩)
      ⟨⟨"cosmos2contract"⟩⟩ ⟨"alice", []⟩ 4 =
      (some ⟨"creator", "juno145tr", "juno"⟩, .ok
        { messages := [
            CosmosMsg.Wasm "juno145tr"
              (Cw20ExecuteMsg.TransferFrom "alice" "cosmos2contract" 4) [],
            CosmosMsg.Wasm "juno145tr" (Cw20ExecuteMsg.Burn 4) [],
            CosmosMsg.Bank "alice" [⟨"juno", 4⟩]],
          attributes := [attr "action" "withdraw",
            attr "amount" (toString 4),
            attr "sender" "alice"] }) :=
  withdraw_sufficient_allowance_batch (qConst 10) _ _ _ 4 10 _ rfl rfl
    (by decide)

/-- C2 counterexample: a fund list whose entries all carry the native
denom but whose amounts sum to `2 ^ 128` makes `try_deposit` fail with
`ArithmeticOverflow` instead of succeeding with a Mint, refuting the
unconditional claim. -/
theorem deposit_sum_claim_cex :
    ([(⟨"juno", 2 ^ 128 - 1⟩ : Coin), ⟨"juno", 1⟩].all
        (fun c => c.denom == "juno") = true) ∧
    try_deposit (some ⟨"creator", "juno145tr", "juno"⟩)
        ⟨"alice", [⟨"juno", 2 ^ 128 - 1⟩, ⟨"juno", 1⟩]⟩ =
      (some ⟨"creator", "juno145tr", "juno"⟩, .error .ArithmeticOverflow) :=
  ⟨by decide, by rfl⟩

/-- C2 (amended): for every fund list in which every entry's denom
equals the configured native denom and whose amount sum stays below
`2 ^ 128`, `try_deposit` succeeds and produces exactly one Mint action
for the depositor over the sum of the fund amounts, with attributes
action="deposit", amount, sender. -/
theorem deposit_sum_correct_of_no_overflow (store : Option State)
    (info : MessageInfo) (state : State) (hload : store = some state)
    (hdenom : ∀ c ∈ info.funds, c.denom = state.native_coin)
    (hsum : (info.funds.map (fun c => c.amount)).sum < UINT128_MOD) :
    try_deposit store info =
      (store, .ok
        { messages := [CosmosMsg.Wasm state.contract
            (Cw20ExecuteMsg.Mint info.sender
              ((info.funds.map (fun c => c.amount)).sum)) []],
          attributes := [attr "action" "deposit",
            attr "amount" (toString ((info.funds.map (fun c => c.amount)).sum)),
            attr "sender" info.sender] }) :=
  try_deposit_ok_of store info state hload hdenom hsum

/-- C2 witness: depositing (juno,10) and (juno,5) mints 15 to the
depositor. -/
theorem deposit_sum_correct_of_no_overflow_witness :
    try_deposit (some ⟨"creator", "juno145tr", "juno"⟩)
        ⟨"alice", [⟨"juno", 10⟩, ⟨"juno", 5⟩]⟩ =
      (some ⟨"creator", "juno145tr", "juno"⟩, .ok
        { messages := [CosmosMsg.Wasm "juno145tr"
            (Cw20ExecuteMsg.Mint "alice" 15) []],
          attributes := [attr "action" "deposit",
            attr "amount" (toString 15),
            attr "sender" "alice"] }) :=
  deposit_sum_correct_of_no_overflow
    (some ⟨"creator", "juno145tr", "juno"⟩)
    ⟨"alice", [⟨"juno", 10⟩, ⟨"juno", 5⟩]⟩ _ rfl (by decide)
    (by simp [UINT128_MOD])

/-- C3: any fund list containing at least one entry whose denom differs
from the configured native denom makes `try_deposit` fail with
`Unauthorized`, leaving storage untouched and producing zero actions. -/
theorem deposit_bad_denom_unauthorized (store : Option State)
    (info : MessageInfo) (state : State) (hload : store = some state)
    (hbad : ∃ c ∈ info.funds, c.denom ≠ state.native_coin) :
    try_deposit store info = (store, .error .Unauthorized) := by
  subst hload
  unfold try_deposit
  simp only [STATE.load]
  rw [if_pos (by
    simp only [List.any_eq_true, bne_iff_ne, ne_eq]
    exact hbad)]

/-- C3 witness: a (btc,10) entry among the funds is rejected. -/
theorem deposit_bad_denom_unauthorized_witness :
    (∃ c ∈ ([⟨"juno", 3⟩, ⟨"btc", 10⟩] : List Coin), c.denom ≠ "juno") ∧
    try_deposit (some ⟨"creator", "juno145tr", "juno"⟩)
        ⟨"alice", [⟨"juno", 3⟩, ⟨"btc", 10⟩]⟩ =
      (some ⟨"creator", "juno145tr", "juno"⟩, .error .Unauthorized) :=
  ⟨by decide,
   deposit_bad_denom_unauthorized (some ⟨"creator", "juno145tr", "juno"⟩)
     ⟨"alice", [⟨"juno", 3⟩, ⟨"btc", 10⟩]⟩ _ rfl (by decide)⟩

/-- C4: with the ledger reporting allowance r for (caller, contract),
`try_withdraw` of amount A fails with `Unauthorized` and zero actions
when r < A, and it succeeds if and only if A ≤ r. -/
theorem withdraw_allowance_gate
    (querier : String → String → String → Except String AllowanceResponse)
    (store : Option State) (env : Env) (info : MessageInfo)
    (amount r : Nat) (state : State)
    (hload : store = some state)
    (hq : querier state.contract info.sender env.contract.address = .ok ⟨r⟩) :
    (r < amount →
      try_withdraw querier store env info amount = (store, .error .Unauthorized)) ∧
    ((∃ resp, (try_withdraw querier store env info amount).2 = .ok resp) ↔
      amount ≤ r) := by
  subst hload
  unfold try_withdraw
  simp only [STATE.load, hq]
  constructor
  · intro hlt
    rw [if_pos hlt]
  · by_cases hle : amount ≤ r
    · rw [if_neg (by simp only [gt_iff_lt, not_lt]; exact hle)]
      simp [hle]
    · rw [if_pos (Nat.not_le.mp hle)]
      simp [hle]

/-- C4 witness: withdrawing 20 against a reported allowance of 10 fails
with `Unauthorized`. -/
theorem withdraw_allowance_gate_witness :
    try_withdraw (qConst 10) (some ⟨"creator", "juno145tr", "juno"⟩)
      ⟨⟨"cosmos2contract"⟩⟩ ⟨"alice", []⟩ 20 =
      (some ⟨"creator", "juno145tr", "juno"⟩, .error .Unauthorized) :=
  (withdraw_allowance_gate (qConst 10) _ _ _ 20 10 _ rfl rfl).1 (by decide)

/-- C5: `try_receive` fails with `Unauthorized` and zero actions when
the notifying caller differs from the bound ledger address, and when it
equals it exactly it succeeds with exactly two actions in order: a cw20
Burn on the ledger, then a native bank send of (native_denom, amount) to
the original sender embedded in the notification, with attributes
action="receive_to_withdraw", amount, sender. -/
theorem receive_authenticity (store : Option State) (info : MessageInfo)
    (sender : String) (amount : Nat) (state : State)
    (hload : store = some state) :
    (info.sender ≠ state.contract →
      try_receive store info sender amount = (store, .error .Unauthorized)) ∧
    (info.sender = state.contract →
      try_receive store info sender amount =
        (store, .ok
          { messages := [
              CosmosMsg.Wasm state.contract (Cw20ExecuteMsg.Burn amount) [],
              CosmosMsg.Bank sender [⟨state.native_coin, amount⟩]],
            attributes := [attr "action" "receive_to_withdraw",
              attr "amount" (toString amount),
              attr "sender" sender] })) := by
  subst hload
  unfold try_receive
  simp only [STATE.load]
  constructor
  · intro hne
    rw [if_pos hne]
  · intro heq
    rw [if_neg (not_not_intro heq)]

/-- C5 witness: a notification from the bound ledger for (alice, 7)
burns 7 and sends (juno, 7) to alice; instantiated at the bound ledger
as caller. -/
theorem receive_authenticity_witness :
    try_receive (some ⟨"creator", "juno145tr", "juno"⟩)
        ⟨"juno145tr", []⟩ "alice" 7 =
      (some ⟨"creator", "juno145tr", "juno"⟩, .ok
        { messages := [
            CosmosMsg.Wasm "juno145tr" (Cw20ExecuteMsg.Burn 7) [],
            CosmosMsg.Bank "alice" [⟨"juno", 7⟩]],
          attributes := [attr "action" "receive_to_withdraw",
            attr "amount" (toString 7),
            attr "sender" "alice"] }) :=
  (receive_authenticity (some ⟨"creator", "juno145tr", "juno"⟩)
    ⟨"juno145tr", []⟩ "alice" 7 _ rfl).2 (by decide)

/-- C6: binding the ledger is permitted exactly for the configured owner
while the ledger address is still empty: violating either condition
fails with `Unauthorized` leaving storage untouched, and when both hold
(and the collaborator address validator accepts the supplied address)
the configuration's ledger address is set to the supplied identity and
no actions are produced. -/
theorem bind_ledger_auth (api_valid : String → Bool) (store : Option State)
    (info : MessageInfo) (contract : String) (state : State)
    (hload : store = some state) :
    (¬ (info.sender = state.owner ∧ state.contract = "") →
      try_update_contract api_valid store info contract =
        (store, .error .Unauthorized)) ∧
    (info.sender = state.owner → state.contract = "" →
      api_valid contract = true →
      try_update_contract api_valid store info contract =
        (some { state with contract := contract }, .ok Response.default)) := by
  subst hload
  unfold try_update_contract
  simp only [STATE.load]
  constructor
  · intro hviol
    by_cases h1 : info.sender = state.owner
    · have h2 : state.contract ≠ "" := fun hc => hviol ⟨h1, hc⟩
      rw [if_neg (not_not_intro h1),
        if_pos (fun him => h2 ((String.isEmpty_iff _).mp him))]
    · rw [if_pos h1]
  · intro h1 h2 h3
    rw [if_neg (not_not_intro h1),
      if_neg (not_not_intro ((String.isEmpty_iff _).mpr h2)),
      if_neg (not_not_intro h3)]

/-- C6 witness: the owner binds "juno145tr" on a fresh configuration and
storage is updated with no actions produced. -/
theorem bind_ledger_auth_witness :
    try_update_contract apiAll (some ⟨"creator", "", "juno"⟩)
        ⟨"creator", []⟩ "juno145tr" =
      (some ⟨"creator", "juno145tr", "juno"⟩, .ok Response.default) :=
  (bind_ledger_auth apiAll (some ⟨"creator", "", "juno"⟩)
    ⟨"creator", []⟩ "juno145tr" _ rfl).2 rfl rfl rfl

/-- C7: when every attached fund carries the native denom and the fund
amounts sum to at least `2 ^ 128`, the overflow-checked deposit fold
makes `try_deposit` fail with `ArithmeticOverflow` instead of silently
wrapping. -/
theorem deposit_sum_overflow_error (store : Option State)
    (info : MessageInfo) (state : State) (hload : store = some state)
    (hdenom : ∀ c ∈ info.funds, c.denom = state.native_coin)
    (hsum : UINT128_MOD ≤ (info.funds.map (fun c => c.amount)).sum) :
    try_deposit store info = (store, .error .ArithmeticOverflow) := by
  subst hload
  unfold try_deposit
  simp only [STATE.load]
  rw [if_neg (by
    simp only [List.any_eq_true, bne_iff_ne, ne_eq, not_exists, not_and, not_not]
    exact hdenom)]
  rw [foldSum_eq _ 0 (by simp [UINT128_MOD]), if_neg (by omega)]

/-- C7 witness: two valid-denom funds of `2 ^ 128 - 1` and 2 overflow
the 128-bit range and the deposit fails with `ArithmeticOverflow`. -/
theorem deposit_sum_overflow_error_witness :
    UINT128_MOD ≤ (([⟨"juno", 2 ^ 128 - 1⟩, ⟨"juno", 2⟩] : List Coin).map
      (fun c => c.amount)).sum ∧
    try_deposit (some ⟨"creator", "juno145tr", "juno"⟩)
        ⟨"alice", [⟨"juno", 2 ^ 128 - 1⟩, ⟨"juno", 2⟩]⟩ =
      (some ⟨"creator", "juno145tr", "juno"⟩, .error .ArithmeticOverflow) :=
  ⟨by norm_num [UINT128_MOD],
   deposit_sum_overflow_error (some ⟨"creator", "juno145tr", "juno"⟩)
     ⟨"alice", [⟨"juno", 2 ^ 128 - 1⟩, ⟨"juno", 2⟩]⟩ _ rfl (by decide)
     (by norm_num [UINT128_MOD])⟩

/-- C9: whenever `execute` returns an error of any kind, the persisted
configuration is unchanged (and, the result being an error, no actions
are returned). -/
theorem execute_error_atomic (api_valid : String → Bool)
    (querier : String → String → String → Except String AllowanceResponse)
    (store : Option State) (env : Env) (info : MessageInfo)
    (msg : ExecuteMsg) (e : ContractError)
    (herr : (execute api_valid querier store env info msg).2 = .error e) :
    (execute api_valid querier store env info msg).1 = store := by
  cases msg with
  | Deposit => exact try_deposit_fst store info
  | Withdraw amount => exact try_withdraw_fst querier store env info amount
  | SetContract contract =>
    rcases try_update_contract_cases api_valid store info contract with
      ⟨e₁, hc⟩ | ⟨state, _, _, _, _, hc⟩
    · show (try_update_contract api_valid store info contract).1 = store
      rw [hc]
    · have : (try_update_contract api_valid store info contract).2 = .error e :=
        herr
      rw [hc] at this
      exact absurd this (by simp)
  | Receive sender amount => exact try_receive_fst store info sender amount

/-- C9 witness: a non-owner bind attempt fails and the configuration is
untouched. -/
theorem execute_error_atomic_witness :
    (execute apiAll (qConst 10) (some ⟨"creator", "", "juno"⟩)
      ⟨⟨"cosmos2contract"⟩⟩ ⟨"mallory", []⟩ (.SetContract "evil")).2 =
        .error .Unauthorized ∧
    (execute apiAll (qConst 10) (some ⟨"creator", "", "juno"⟩)
      ⟨⟨"cosmos2contract"⟩⟩ ⟨"mallory", []⟩ (.SetContract "evil")).1 =
        some ⟨"creator", "", "juno"⟩ :=
  ⟨by rfl,
   execute_error_atomic apiAll (qConst 10) (some ⟨"creator", "", "juno"⟩)
     ⟨⟨"cosmos2contract"⟩⟩ ⟨"mallory", []⟩ (.SetContract "evil")
     .Unauthorized (by rfl)⟩

/-- One operation preserves the owner and native denom fields, keeps the
store populated, and preserves a non-empty ledger address. -/
theorem step_preserve (api_valid : String → Bool)
    (querier : String → String → String → Except String AllowanceResponse)
    (s : State) (op : Op) :
    ∃ s₁, step api_valid querier (some s) op = some s₁ ∧
      s₁.owner = s.owner ∧ s₁.native_coin = s.native_coin ∧
      (s.contract ≠ "" → s₁.contract = s.contract) := by
  cases op with
  | getInfo => exact ⟨s, rfl, rfl, rfl, fun _ => rfl⟩
  | exec env info msg =>
    cases msg with
    | Deposit =>
      exact ⟨s, try_deposit_fst (some s) info, rfl, rfl, fun _ => rfl⟩
    | Withdraw amount =>
      exact ⟨s, try_withdraw_fst querier (some s) env info amount, rfl, rfl,
        fun _ => rfl⟩
    | Receive sender amount =>
      exact ⟨s, try_receive_fst (some s) info sender amount, rfl, rfl,
        fun _ => rfl⟩
    | SetContract c =>
      rcases try_update_contract_cases api_valid (some s) info c with
        ⟨e, hc⟩ | ⟨state, hload, hown, hemp, hapi, hc⟩
      · refine ⟨s, ?_, rfl, rfl, fun _ => rfl⟩
        show (try_update_contract api_valid (some s) info c).1 = some s
        rw [hc]
      · injection (show Except.ok s = Except.ok state from hload) with hs
        subst hs
        refine ⟨{ s with contract := c }, ?_, rfl, rfl, fun hne => absurd hemp hne⟩
        show (try_update_contract api_valid (some s) info c).1 =
          some { s with contract := c }
        rw [hc]

/-- Operation sequences preserve the owner and native denom fields, keep
the store populated, and preserve a non-empty ledger address. -/
theorem runOps_preserve (api_valid : String → Bool)
    (querier : String → String → String → Except String AllowanceResponse)
    (ops : List Op) : ∀ s : State,
    ∃ s₁, runOps api_valid querier (some s) ops = some s₁ ∧
      s₁.owner = s.owner ∧ s₁.native_coin = s.native_coin ∧
      (s.contract ≠ "" → s₁.contract = s.contract) := by
  induction ops with
  | nil => exact fun s => ⟨s, rfl, rfl, rfl, fun _ => rfl⟩
  | cons op rest ih =>
    intro s
    obtain ⟨s₁, hstep, ho₁, hn₁, hc₁⟩ := step_preserve api_valid querier s op
    obtain ⟨s₂, hrun, ho₂, hn₂, hc₂⟩ := ih s₁
    refine ⟨s₂, ?_, ho₂.trans ho₁, hn₂.trans hn₁, ?_⟩
    · show List.foldl (step api_valid querier)
        (step api_valid querier (some s) op) rest = some s₂
      rw [hstep]
      exact hrun
    · intro hne
      have h1 := hc₁ hne
      have h2 : s₁.contract ≠ "" := by rw [h1]; exact hne
      exact (hc₂ h2).trans h1

/-- C8: starting from any configuration, every sequence of operations
(deposit, withdraw, receive-notification, bind-ledger, info query)
leaves the owner and native denom fields set at initialization
unchanged; once the ledger address is non-empty it keeps the same value
forever and every subsequent bind fails with `Unauthorized` regardless
of caller; and (the collaborator validator rejecting the empty address)
any successful bind wrote exactly the supplied, non-empty identity, so
the ledger address transitions from empty to non-empty at most once. -/
theorem config_immutable_bind_once (api_valid : String → Bool)
    (querier : String → String → String → Except String AllowanceResponse)
    (s : State) (ops : List Op) :
    ∃ s₁, runOps api_valid querier (some s) ops = some s₁ ∧
      s₁.owner = s.owner ∧ s₁.native_coin = s.native_coin ∧
      (s.contract ≠ "" → s₁.contract = s.contract ∧
        ∀ info c, try_update_contract api_valid (some s₁) info c =
          (some s₁, .error .Unauthorized)) ∧
      (api_valid "" = false → ∀ info c s₂,
        try_update_contract api_valid (some s) info c =
          (some s₂, .ok Response.default) →
        s₂.contract = c ∧ c ≠ "") := by
  obtain ⟨s₁, hrun, ho, hn, hc⟩ := runOps_preserve api_valid querier ops s
  refine ⟨s₁, hrun, ho, hn, ?_, ?_⟩
  · intro hne
    have h1 := hc hne
    exact ⟨h1, fun info c =>
      try_update_contract_bound_fails api_valid s₁ info c
        (by rw [h1]; exact hne)⟩
  · intro hapi info c s₂ hsucc
    rcases try_update_contract_cases api_valid (some s) info c with
      ⟨e, hcse⟩ | ⟨state, hload, hown, hemp, hap, hcs⟩
    · rw [hcse] at hsucc
      simp at hsucc
    · rw [hcs] at hsucc
      simp only [Prod.mk.injEq, Option.some.injEq] at hsucc
      obtain ⟨hs₂, _⟩ := hsucc
      refine ⟨by rw [← hs₂], fun hce => ?_⟩
      rw [hce] at hap
      rw [hapi] at hap
      exact Bool.false_ne_true hap

/-- C8 witness: from a configuration already bound to "juno145tr", a
deposit, a bind attempt and an info query leave owner, denom and ledger
address unchanged, subsequent binds fail, and on the fresh side a
successful bind writes the supplied non-empty address. -/
theorem config_immutable_bind_once_witness :
    ∃ s₁, runOps apiNonEmpty (qConst 10)
        (some ⟨"creator", "juno145tr", "juno"⟩)
        [Op.exec ⟨⟨"cosmos2contract"⟩⟩ ⟨"alice", [⟨"juno", 5⟩]⟩ .Deposit,
         Op.exec ⟨⟨"cosmos2contract"⟩⟩ ⟨"creator", []⟩ (.SetContract "other"),
         Op.getInfo] = some s₁ ∧
      s₁.owner = "creator" ∧ s₁.native_coin = "juno" ∧
      ("juno145tr" ≠ "" → s₁.contract = "juno145tr" ∧
        ∀ info c, try_update_contract apiNonEmpty (some s₁) info c =
          (some s₁, .error .Unauthorized)) ∧
      (apiNonEmpty "" = false → ∀ info c s₂,
        try_update_contract apiNonEmpty
            (some ⟨"creator", "juno145tr", "juno"⟩) info c =
          (some s₂, .ok Response.default) →
        s₂.contract = c ∧ c ≠ "") :=
  config_immutable_bind_once apiNonEmpty (qConst 10)
    ⟨"creator", "juno145tr", "juno"⟩
    [Op.exec ⟨⟨"cosmos2contract"⟩⟩ ⟨"alice", [⟨"juno", 5⟩]⟩ .Deposit,
     Op.exec ⟨⟨"cosmos2contract"⟩⟩ ⟨"creator", []⟩ (.SetContract "other"),
     Op.getInfo]

/-- C10 counterexample: with the ledger still unbound, an all-native
fund list summing to at least `2 ^ 128` makes `try_deposit` fail with
`ArithmeticOverflow`, refuting the unconditional claim that such
deposits succeed. -/
theorem deposit_unbound_claim_cex :
    (([⟨"juno", 2 ^ 128 - 1⟩, ⟨"juno", 3⟩] : List Coin).all
        (fun c => c.denom == "juno") = true) ∧
    try_deposit (some ⟨"creator", "", "juno"⟩)
        ⟨"alice", [⟨"juno", 2 ^ 128 - 1⟩, ⟨"juno", 3⟩]⟩ =
      (some ⟨"creator", "", "juno"⟩, .error .ArithmeticOverflow) :=
  ⟨by decide, by rfl⟩

/-- C10 (amended): deposit does not require the ledger to be bound: for
every configuration whose ledger address is still empty, a deposit whose
funds all carry the native denom and whose amounts sum below `2 ^ 128`
succeeds, producing a Mint call whose target address is the empty
string. -/
theorem deposit_unbound_succeeds_of_no_overflow (store : Option State)
    (info : MessageInfo) (state : State) (hload : store = some state)
    (hunbound : state.contract = "")
    (hdenom : ∀ c ∈ info.funds, c.denom = state.native_coin)
    (hsum : (info.funds.map (fun c => c.amount)).sum < UINT128_MOD) :
    try_deposit store info =
      (store, .ok
        { messages := [CosmosMsg.Wasm ""
            (Cw20ExecuteMsg.Mint info.sender
              ((info.funds.map (fun c => c.amount)).sum)) []],
          attributes := [attr "action" "deposit",
            attr "amount" (toString ((info.funds.map (fun c => c.amount)).sum)),
            attr "sender" info.sender] }) := by
  rw [try_deposit_ok_of store info state hload hdenom hsum, hunbound]

/-- C10 witness: a (juno,10) deposit on an unbound configuration mints
10 through a Wasm call targeted at the empty address. -/
theorem deposit_unbound_succeeds_of_no_overflow_witness :
    try_deposit (some ⟨"creator", "", "juno"⟩) ⟨"alice", [⟨"juno", 10⟩]⟩ =
      (some ⟨"creator", "", "juno"⟩, .ok
        { messages := [CosmosMsg.Wasm ""
            (Cw20ExecuteMsg.Mint "alice" 10) []],
          attributes := [attr "action" "deposit",
            attr "amount" (toString 10),
            attr "sender" "alice"] }) :=
  deposit_unbound_succeeds_of_no_overflow (some ⟨"creator", "", "juno"⟩)
    ⟨"alice", [⟨"juno", 10⟩]⟩ _ rfl rfl (by decide) (by simp [UINT128_MOD])

end WJuno
